import Mathlib

/-!
Verification of the CSV-ingestion and rule-based question-answering core of
the executive-summary generator (source files: `app.py`, `datahelper.py`).

The Python functions are shallowly embedded as executable Lean definitions:
byte contents are `List Nat` (one entry per byte), decoded text is `List Char`
(one entry per Unicode code point), tables are explicit structures, and
fallible Python code returns `Except PyErr`.  The statistical encoding
detector (`chardet.detect`) is not deterministic source logic, so every
theorem about the loader is parameterised over an arbitrary detector function
`detect : List Nat → Option Encoding`.
-/

/-- Python exceptions that the embedded fragment can raise. -/
inductive PyErr where
  | keyError (key : String)
  | typeError (msg : String)
  | unicodeDecodeError
  | valueError (msg : String)
  | parserError (msg : String)
  | emptyDataError (msg : String)
deriving DecidableEq, Repr

/-- Renders an exception roughly as Python's `str(e)` would; only used to build
the `ValueError` message of `read_csv_any_encoding`, whose exact text no claim
depends on. -/
def errStr : PyErr → String
  | PyErr.keyError k => k
  | PyErr.typeError m => m
  | PyErr.unicodeDecodeError => "invalid byte sequence"
  | PyErr.valueError m => m
  | PyErr.parserError m => m
  | PyErr.emptyDataError m => m

/-- Text encodings the embedding models.  The detector may also fail to
produce a label, which the source maps to "utf-8"
(`detected.get("encoding") or "utf-8"`). -/
inductive Encoding where
  | utf8
  | ascii
  | latin1
deriving DecidableEq, Repr

/-- Is `b` a UTF-8 continuation byte (`0b10xxxxxx`)? -/
def isCont (b : Nat) : Prop := 0x80 ≤ b ∧ b ≤ 0xBF

instance (b : Nat) : Decidable (isCont b) := by unfold isCont; infer_instance

/-- Allowed range of the first continuation byte of a 3-byte UTF-8 sequence
(excludes overlong encodings for `0xE0` and surrogates for `0xED`). -/
def cont3ok (b b1 : Nat) : Prop :=
  if b = 0xE0 then 0xA0 ≤ b1 ∧ b1 ≤ 0xBF
  else if b = 0xED then 0x80 ≤ b1 ∧ b1 ≤ 0x9F
  else isCont b1

instance (b b1 : Nat) : Decidable (cont3ok b b1) := by unfold cont3ok; infer_instance

/-- Allowed range of the first continuation byte of a 4-byte UTF-8 sequence
(excludes overlong encodings for `0xF0` and code points above U+10FFFF for
`0xF4`). -/
def cont4ok (b b1 : Nat) : Prop :=
  if b = 0xF0 then 0x90 ≤ b1 ∧ b1 ≤ 0xBF
  else if b = 0xF4 then 0x80 ≤ b1 ∧ b1 ≤ 0x8F
  else isCont b1

instance (b b1 : Nat) : Decidable (cont4ok b b1) := by unfold cont4ok; infer_instance

/-- Strict UTF-8 decoding (Python's `errors="strict"`): `none` models a raised
`UnicodeDecodeError`.  The fuel argument is an upper bound on the number of
decoded code points; callers pass the byte count. -/
def utf8DecodeAux : Nat → List Nat → Option (List Char)
  | _, [] => some []
  | 0, _ :: _ => none
  | fuel + 1, b :: bs =>
    if b ≤ 0x7F then
      (utf8DecodeAux fuel bs).map (fun cs => Char.ofNat b :: cs)
    else if 0xC2 ≤ b ∧ b ≤ 0xDF then
      match bs with
      | b1 :: bs1 =>
        if isCont b1 then
          (utf8DecodeAux fuel bs1).map
            (fun cs => Char.ofNat ((b - 0xC0) * 0x40 + (b1 - 0x80)) :: cs)
        else none
      | [] => none
    else if 0xE0 ≤ b ∧ b ≤ 0xEF then
      match bs with
      | b1 :: b2 :: bs2 =>
        if cont3ok b b1 ∧ isCont b2 then
          (utf8DecodeAux fuel bs2).map
            (fun cs =>
              Char.ofNat ((b - 0xE0) * 0x1000 + (b1 - 0x80) * 0x40 + (b2 - 0x80)) :: cs)
        else none
      | _ => none
    else if 0xF0 ≤ b ∧ b ≤ 0xF4 then
      match bs with
      | b1 :: b2 :: b3 :: bs3 =>
        if cont4ok b b1 ∧ isCont b2 ∧ isCont b3 then
          (utf8DecodeAux fuel bs3).map
            (fun cs =>
              Char.ofNat ((b - 0xF0) * 0x40000 + (b1 - 0x80) * 0x1000 +
                (b2 - 0x80) * 0x40 + (b3 - 0x80)) :: cs)
        else none
      | _ => none
    else none

/-- Strict UTF-8 decoding of a whole byte string. -/
def utf8Decode (bs : List Nat) : Option (List Char) := utf8DecodeAux bs.length bs

/-- The U+FFFD replacement character produced by Python's `errors="replace"`. -/
def replChar : Char := Char.ofNat 0xFFFD

/-- UTF-8 decoding with Python's `errors="replace"` policy: an ill-formed
sequence is replaced by U+FFFD and decoding continues (one replacement per
rejected leading byte, which matches CPython on the inputs considered here). -/
def utf8DecodeReplaceAux : Nat → List Nat → List Char
  | _, [] => []
  | 0, _ :: _ => []
  | fuel + 1, b :: bs =>
    if b ≤ 0x7F then Char.ofNat b :: utf8DecodeReplaceAux fuel bs
    else if 0xC2 ≤ b ∧ b ≤ 0xDF then
      match bs with
      | b1 :: bs1 =>
        if isCont b1 then
          Char.ofNat ((b - 0xC0) * 0x40 + (b1 - 0x80)) :: utf8DecodeReplaceAux fuel bs1
        else replChar :: utf8DecodeReplaceAux fuel bs
      | [] => [replChar]
    else if 0xE0 ≤ b ∧ b ≤ 0xEF then
      match bs with
      | b1 :: b2 :: bs2 =>
        if cont3ok b b1 ∧ isCont b2 then
          Char.ofNat ((b - 0xE0) * 0x1000 + (b1 - 0x80) * 0x40 + (b2 - 0x80)) ::
            utf8DecodeReplaceAux fuel bs2
        else replChar :: utf8DecodeReplaceAux fuel bs
      | _ => replChar :: utf8DecodeReplaceAux fuel bs
    else if 0xF0 ≤ b ∧ b ≤ 0xF4 then
      match bs with
      | b1 :: b2 :: b3 :: bs3 =>
        if cont4ok b b1 ∧ isCont b2 ∧ isCont b3 then
          Char.ofNat ((b - 0xF0) * 0x40000 + (b1 - 0x80) * 0x1000 +
            (b2 - 0x80) * 0x40 + (b3 - 0x80)) :: utf8DecodeReplaceAux fuel bs3
        else replChar :: utf8DecodeReplaceAux fuel bs
      | _ => replChar :: utf8DecodeReplaceAux fuel bs
    else replChar :: utf8DecodeReplaceAux fuel bs

/-- UTF-8 decoding with replacement of a whole byte string. -/
def utf8DecodeReplace (bs : List Nat) : List Char :=
  utf8DecodeReplaceAux bs.length bs

/-- Decode a byte string under an encoding label, Python `errors="strict"`:
`none` models a raised `UnicodeDecodeError`. -/
def decodeBytes : Encoding → List Nat → Option (List Char)
  | Encoding.utf8, bs => utf8Decode bs
  | Encoding.ascii, bs =>
    if bs.all (fun b => b ≤ 0x7F) then some (bs.map Char.ofNat) else none
  | Encoding.latin1, bs => some (bs.map Char.ofNat)

/-- The tabular structure produced by `pd.read_csv`.  Cells are kept as the
raw decoded fields; pandas' numeric type inference is not needed by any
loader-level claim, which only compare tables structurally. -/
structure Table where
  header : List String
  rows : List (List String)
deriving DecidableEq, Repr

/-- Splits a character list at every occurrence of `sep` (like Python
`str.split`, so a trailing separator yields a trailing empty field). -/
def splitOn (sep : Char) : List Char → List (List Char)
  | [] => [[]]
  | c :: cs =>
    match splitOn sep cs with
    | f :: rest => if c = sep then [] :: f :: rest else (c :: f) :: rest
    | [] => if c = sep then [[], []] else [[c]]

/-- Drops a single trailing carriage return (universal-newline handling of
`\r\n` line endings). -/
def stripCR (l : List Char) : List Char :=
  match l.reverse with
  | c :: t => if c = '\r' then t.reverse else l
  | [] => l

/-- The logical CSV lines of a decoded text: split at newlines, strip a
trailing carriage return, and skip blank lines (pandas `skip_blank_lines=True`,
which also absorbs the line break after the final row). -/
def csvLines (cs : List Char) : List (List Char) :=
  ((splitOn '\n' cs).map stripCR).filter (fun l => l ≠ [])

/-- Pads a short row on the right up to the header width; pandas fills missing
trailing fields with NaN, rendered here as the empty field. -/
def padTo (n : Nat) (r : List String) : List String :=
  r ++ List.replicate (n - r.length) ""

/-- The pandas CSV parser on decoded text (C engine, comma separator, header
row taken from the first line): a row wider than the header is a
`ParserError`, a narrower row is NaN-padded, and content without any line is
an `EmptyDataError`.  Quoting and duplicate-header mangling are not exercised
by any claim and are not modelled. -/
def parseCSV (cs : List Char) : Except PyErr Table :=
  match csvLines cs with
  | [] => Except.error (PyErr.emptyDataError "No columns to parse from file")
  | h :: rs =>
    let header := (splitOn ',' h).map (fun f => String.mk f)
    let n := header.length
    let rows := rs.map (fun r => (splitOn ',' r).map (fun f => String.mk f))
    if rows.all (fun r => r.length ≤ n) then
      Except.ok (Table.mk header (rows.map (fun r => padTo n r)))
    else
      Except.error (PyErr.parserError "Error tokenizing data")

/-- A seekable byte stream (the Streamlit `UploadedFile`): content plus the
current read position. -/
structure ByteStream where
  content : List Nat
  pos : Nat
deriving DecidableEq, Repr

/-- Decoding plus parsing, as performed by one `pd.read_csv(..., encoding=enc,
low_memory=False)` call on a byte string. -/
def pd_parse (enc : Encoding) (bytes : List Nat) : Except PyErr Table :=
  match decodeBytes enc bytes with
  | none => Except.error PyErr.unicodeDecodeError
  | some cs => parseCSV cs

/-- `pd.read_csv` on a stream: parses the bytes from the current position to
the end and leaves the stream at end-of-stream. -/
def pd_read_csv (enc : Encoding) (s : ByteStream) : Except PyErr Table × ByteStream :=
  (pd_parse enc (s.content.drop s.pos), ByteStream.mk s.content s.content.length)

/-- The `str(TypeError)` produced when `read_csv_any_encoding` retries with
`pd.read_csv(file_obj, encoding="utf-8", errors="replace", low_memory=False)`:
`pandas.read_csv` has no `errors` parameter (the encoding policy parameter is
`encoding_errors`), so the retry call raises `TypeError` before reading any
byte. -/
def fallbackTypeErrorMsg : String :=
  "read_csv() got an unexpected keyword argument 'errors'"

/-- The message of the `ValueError` raised by the outer `except Exception`
handler of `read_csv_any_encoding`. -/
def ingestionMsg (cause : String) : String :=
  "Unable to read CSV file due to encoding issue: " ++ cause

/-- `datahelper.read_csv_any_encoding`, stream branch (`hasattr(file_obj,
"read")`): read all bytes, run the detector, default a missing label to utf-8,
seek to the start, parse; on `UnicodeDecodeError` seek to the start and retry —
but the retry call itself raises `TypeError` (see `fallbackTypeErrorMsg`),
which the outer handler converts to `ValueError`, as it does every other
non-`UnicodeDecodeError` failure of the first parse. -/
def read_csv_any_encoding_stream (detect : List Nat → Option Encoding)
    (s : ByteStream) : Except PyErr Table × ByteStream :=
  let raw := s.content.drop s.pos
  let encoding := (detect raw).getD Encoding.utf8
  match pd_read_csv encoding (ByteStream.mk s.content 0) with
  | (Except.ok t, s3) => (Except.ok t, s3)
  | (Except.error PyErr.unicodeDecodeError, s3) =>
    (Except.error (PyErr.valueError (ingestionMsg fallbackTypeErrorMsg)),
      ByteStream.mk s3.content 0)
  | (Except.error e, s3) =>
    (Except.error (PyErr.valueError (ingestionMsg (errStr e))), s3)

/-- `datahelper.read_csv_any_encoding`, filesystem-path branch: the whole file
is read for detection and the parse re-reads the file from the start, so the
function is a pure function of the file content. -/
def read_csv_any_encoding_path (detect : List Nat → Option Encoding)
    (content : List Nat) : Except PyErr Table :=
  let encoding := (detect content).getD Encoding.utf8
  match pd_parse encoding content with
  | Except.ok t => Except.ok t
  | Except.error PyErr.unicodeDecodeError =>
    Except.error (PyErr.valueError (ingestionMsg fallbackTypeErrorMsg))
  | Except.error e => Except.error (PyErr.valueError (ingestionMsg (errStr e)))

/-- Python's `str.lower()` restricted to ASCII letters; the six question
patterns and all questions in this development are ASCII. -/
def lowerChar (c : Char) : Char :=
  if 'A' ≤ c ∧ c ≤ 'Z' then Char.ofNat (c.toNat + 32) else c

/-- `question.lower()`. -/
def strLower (s : String) : String := String.mk (s.data.map lowerChar)

/-- Does the character list start with `n`? -/
def startsWithL : List Char → List Char → Bool
  | [], _ => true
  | _ :: _, [] => false
  | a :: as, b :: bs => a == b && startsWithL as bs

/-- Python's substring test `n in h` on character lists. -/
def hasSubL (n : List Char) : List Char → Bool
  | [] => startsWithL n []
  | c :: t => startsWithL n (c :: t) || hasSubL n t

/-- Python's substring test `n in h` on strings. -/
def hasSubS (n h : String) : Bool := hasSubL n.data h.data

/-- One cell of a pandas column as seen by `get_answer_to_question`: a
numeric value, NaN (missing), or a string — a CSV column whose cells are text
loads as an object-dtype column of strings, on which the numeric aggregates
below raise exactly as pandas does. -/
inductive Cell where
  | num (q : ℚ)
  | nan
  | str (s : String)
deriving DecidableEq, Repr

/-- The numeric content of a cell. -/
def cellNum : Cell → Option ℚ
  | Cell.num q => some q
  | _ => none

/-- The string content of a cell. -/
def cellStr : Cell → Option String
  | Cell.str s => some s
  | _ => none

/-- Is the cell numeric or missing (i.e. not string-typed)? -/
def isNumCell : Cell → Bool
  | Cell.str _ => false
  | _ => true

/-- A scalar produced by a pandas aggregate: a number, NaN, or (for `max` and
`min` over an all-string column) a string. -/
inductive PdScalar where
  | num (q : ℚ)
  | nan
  | str (s : String)
deriving DecidableEq, Repr

/-- Is the aggregate result a string? -/
def scalarIsStr : PdScalar → Bool
  | PdScalar.str _ => true
  | _ => false

/-- A pandas DataFrame as seen by `get_answer_to_question`: named columns of
cells (numeric, missing, or string-typed). -/
structure DataFrame where
  cols : List (String × List Cell)
deriving DecidableEq, Repr

/-- `df[name]`: the first column of that exact (case-sensitive) name, or a
raised `KeyError`. -/
def dfGet (df : DataFrame) (n : String) : Except PyErr (List Cell) :=
  match df.cols.find? (fun c => c.1 == n) with
  | some c => Except.ok c.2
  | none => Except.error (PyErr.keyError n)

/-- `Series.mean()` with the default `skipna=True`: NaN cells are ignored,
the mean of no numeric values is NaN, and any string cell makes the
underlying sum/divide raise `TypeError` (the embedded messages are schematic,
as in `errStr`). -/
def seriesMean (c : List Cell) : Except PyErr PdScalar :=
  if c.all isNumCell then
    if c.filterMap cellNum = [] then Except.ok PdScalar.nan
    else
      Except.ok (PdScalar.num
        ((c.filterMap cellNum).sum / ((c.filterMap cellNum).length : ℚ)))
  else Except.error (PyErr.typeError "Could not convert string to numeric")

/-- Larger of two strings in code-point lexicographic order (Python string
comparison). -/
def maxStr (a b : String) : String := if a < b then b else a

/-- Smaller of two strings in code-point lexicographic order. -/
def minStr (a b : String) : String := if b < a then b else a

/-- `Series.max()` with the default `skipna=True`: NaN cells are dropped; a
numeric column gives the numeric maximum (NaN when nothing is left), an
all-string column gives the lexicographically largest string, and a column
mixing strings with numbers raises `TypeError` from the comparison. -/
def seriesMax (c : List Cell) : Except PyErr PdScalar :=
  match c.filterMap cellNum, c.filterMap cellStr with
  | [], [] => Except.ok PdScalar.nan
  | x :: xs, [] => Except.ok (PdScalar.num (xs.foldl max x))
  | [], s :: ss => Except.ok (PdScalar.str (ss.foldl maxStr s))
  | _ :: _, _ :: _ =>
    Except.error (PyErr.typeError "not supported between instances of str and float")

/-- `Series.min()` with the default `skipna=True`; see `seriesMax`. -/
def seriesMin (c : List Cell) : Except PyErr PdScalar :=
  match c.filterMap cellNum, c.filterMap cellStr with
  | [], [] => Except.ok PdScalar.nan
  | x :: xs, [] => Except.ok (PdScalar.num (xs.foldl min x))
  | [], s :: ss => Except.ok (PdScalar.str (ss.foldl minStr s))
  | _ :: _, _ :: _ =>
    Except.error (PyErr.typeError "not supported between instances of str and float")

/-- The exact square root of a natural number, when it is a perfect square
(bounded linear search; only ever evaluated on small numbers). -/
def perfectSqrt (n : Nat) : Option Nat :=
  (List.range (n + 1)).find? (fun k => k * k == n)

/-- Exact rational square root, when it exists. -/
def ratSqrt (q : ℚ) : Option ℚ :=
  if q.num < 0 then none
  else
    match perfectSqrt q.num.natAbs, perfectSqrt q.den with
    | some a, some b => some ((a : ℚ) / (b : ℚ))
    | _, _ => none

/-- The Pearson correlation of a list of numeric pairs: a zero variance on
either side gives NaN.  The square root is taken exactly; every correlation
evaluated in this development is rational, and no claim observes the value of
an irrational correlation. -/
def corrOfPairs (p : List (ℚ × ℚ)) : PdScalar :=
  let n : ℚ := (p.length : ℚ)
  let mx := (p.map Prod.fst).sum / n
  let my := (p.map Prod.snd).sum / n
  let sxy := (p.map (fun ab => (ab.1 - mx) * (ab.2 - my))).sum
  let sxx := (p.map (fun ab => (ab.1 - mx) * (ab.1 - mx))).sum
  let syy := (p.map (fun ab => (ab.2 - my) * (ab.2 - my))).sum
  if sxx = 0 ∨ syy = 0 then PdScalar.nan
  else
    match ratSqrt (sxx * syy) with
    | some s => PdScalar.num (sxy / s)
    | none => PdScalar.nan

/-- `Series.corr` (Pearson): both series are first converted to floats, so any
string cell raises `ValueError` ("could not convert string to float"); on
numeric series, pairs with a NaN on either side are dropped and `corrOfPairs`
computes the coefficient. -/
def corrSeries (x y : List Cell) : Except PyErr PdScalar :=
  if x.all isNumCell && y.all isNumCell then
    Except.ok (corrOfPairs ((x.zip y).filterMap (fun ab =>
      match ab with
      | (Cell.num a, Cell.num b) => some (a, b)
      | _ => none)))
  else Except.error (PyErr.valueError "could not convert string to float")

/-- One ASCII digit character. -/
def digitChar (n : Nat) : Char := Char.ofNat (48 + n % 10)

/-- Decimal digits of a natural number, least significant first; the fuel is
an upper bound on the digit count. -/
def natDigitsRev : Nat → Nat → List Char
  | 0, _ => []
  | fuel + 1, n => if n < 10 then [digitChar n] else digitChar (n % 10) :: natDigitsRev fuel (n / 10)

/-- Decimal rendering of a natural number. -/
def natStr (n : Nat) : List Char := (natDigitsRev (n + 1) n).reverse

/-- Exactly `d` decimal digits of `n`, least significant first. -/
def fracDigitsRev : Nat → Nat → List Char
  | 0, _ => []
  | d + 1, n => digitChar (n % 10) :: fracDigitsRev d (n / 10)

/-- Round-half-to-even to an integer, as CPython's float formatting does. -/
def roundHalfEven (q : ℚ) : ℤ :=
  if q - (⌊q⌋ : ℚ) < 1 / 2 then ⌊q⌋
  else if 1 / 2 < q - (⌊q⌋ : ℚ) then ⌊q⌋ + 1
  else if ⌊q⌋ % 2 = 0 then ⌊q⌋ else ⌊q⌋ + 1

/-- Python's fixed-point rendering `format(x, ".df")` on an exact rational
value: the claims only evaluate it at values that a binary double represents
exactly, where it agrees with CPython. -/
def fmtFixedQ (q : ℚ) (d : Nat) : List Char :=
  let n := roundHalfEven (q * (10 : ℚ) ^ d)
  let m := n.natAbs
  (if n < 0 then ['-'] else []) ++ natStr (m / 10 ^ d) ++
    '.' :: (fracDigitsRev d (m % 10 ^ d)).reverse

/-- `f"{x:.df}"` on an aggregate result: Python renders NaN as the literal
`"nan"`, a float in fixed-point, and raises `ValueError` ("Unknown format
code 'f' for object of type 'str'") when the value is a string. -/
def fmtScalar : PdScalar → Nat → Except PyErr String
  | PdScalar.nan, _ => Except.ok "nan"
  | PdScalar.num q, d => Except.ok (String.mk (fmtFixedQ q d))
  | PdScalar.str _, _ =>
    Except.error (PyErr.valueError "Unknown format code f for object of type str")

/-- The body of `app.get_answer_to_question` after `question = question.lower()`:
the if/elif substring cascade of app.py lines 11-24.  Each f-string branch
evaluates the column access (raising `KeyError` for an absent column), then
the aggregate (raising `TypeError` on string-typed content), then the `:.2f`
or `:.3f` format (raising `ValueError` on a string value); any raise
propagates to the caller. -/
def answerLowered (q : String) (df : DataFrame) : Except PyErr String :=
  if hasSubS "average closing price" q then
    match dfGet df "Close" with
    | Except.error e => Except.error e
    | Except.ok c =>
      match seriesMean c with
      | Except.error e => Except.error e
      | Except.ok v =>
        match fmtScalar v 2 with
        | Except.error e => Except.error e
        | Except.ok s => Except.ok ("The average closing price is " ++ s)
  else if hasSubS "highest price" q then
    match dfGet df "High" with
    | Except.error e => Except.error e
    | Except.ok c =>
      match seriesMax c with
      | Except.error e => Except.error e
      | Except.ok v =>
        match fmtScalar v 2 with
        | Except.error e => Except.error e
        | Except.ok s => Except.ok ("The highest price recorded is " ++ s)
  else if hasSubS "lowest price" q then
    match dfGet df "Low" with
    | Except.error e => Except.error e
    | Except.ok c =>
      match seriesMin c with
      | Except.error e => Except.error e
      | Except.ok v =>
        match fmtScalar v 2 with
        | Except.error e => Except.error e
        | Except.ok s => Except.ok ("The lowest price recorded is " ++ s)
  else if hasSubS "trading volume" q then
    match dfGet df "Volume" with
    | Except.error e => Except.error e
    | Except.ok c =>
      match seriesMean c with
      | Except.error e => Except.error e
      | Except.ok v =>
        match fmtScalar v 2 with
        | Except.error e => Except.error e
        | Except.ok s => Except.ok ("The average trading volume is " ++ s)
  else if hasSubS "trend" q && hasSubS "price" q then
    Except.ok "Trend analysis can be visualized through a line chart showing closing prices over time."
  else if hasSubS "correlation" q && hasSubS "price" q then
    match dfGet df "Open" with
    | Except.error e => Except.error e
    | Except.ok o =>
      match dfGet df "Close" with
      | Except.error e => Except.error e
      | Except.ok c =>
        match corrSeries o c with
        | Except.error e => Except.error e
        | Except.ok v =>
          match fmtScalar v 3 with
          | Except.error e => Except.error e
          | Except.ok s =>
            Except.ok ("The correlation between opening and closing prices is " ++ s)
  else
    Except.ok "Answer not available for this question."

/-- `app.get_answer_to_question`. -/
def get_answer_to_question (question : String) (df : DataFrame) : Except PyErr String :=
  answerLowered (strLower question) df

/-- The six recognized question patterns, named after the spec's priority
table. -/
inductive QPattern where
  | avgClose
  | highP
  | lowP
  | vol
  | trendP
  | corrP
deriving DecidableEq, Repr

/-- Does a (lower-cased) question match a pattern? -/
def patternMatches (p : QPattern) (q : String) : Bool :=
  match p with
  | QPattern.avgClose => hasSubS "average closing price" q
  | QPattern.highP => hasSubS "highest price" q
  | QPattern.lowP => hasSubS "lowest price" q
  | QPattern.vol => hasSubS "trading volume" q
  | QPattern.trendP => hasSubS "trend" q && hasSubS "price" q
  | QPattern.corrP => hasSubS "correlation" q && hasSubS "price" q

/-- The spec's exact priority order of the patterns. -/
def patternsInOrder : List QPattern :=
  [QPattern.avgClose, QPattern.highP, QPattern.lowP, QPattern.vol,
    QPattern.trendP, QPattern.corrP]

/-- The answer computed for one matched pattern (access, aggregate, format —
each step fallible, as in `answerLowered`). -/
def answerForPattern (p : QPattern) (df : DataFrame) : Except PyErr String :=
  match p with
  | QPattern.avgClose =>
    match dfGet df "Close" with
    | Except.error e => Except.error e
    | Except.ok c =>
      match seriesMean c with
      | Except.error e => Except.error e
      | Except.ok v =>
        match fmtScalar v 2 with
        | Except.error e => Except.error e
        | Except.ok s => Except.ok ("The average closing price is " ++ s)
  | QPattern.highP =>
    match dfGet df "High" with
    | Except.error e => Except.error e
    | Except.ok c =>
      match seriesMax c with
      | Except.error e => Except.error e
      | Except.ok v =>
        match fmtScalar v 2 with
        | Except.error e => Except.error e
        | Except.ok s => Except.ok ("The highest price recorded is " ++ s)
  | QPattern.lowP =>
    match dfGet df "Low" with
    | Except.error e => Except.error e
    | Except.ok c =>
      match seriesMin c with
      | Except.error e => Except.error e
      | Except.ok v =>
        match fmtScalar v 2 with
        | Except.error e => Except.error e
        | Except.ok s => Except.ok ("The lowest price recorded is " ++ s)
  | QPattern.vol =>
    match dfGet df "Volume" with
    | Except.error e => Except.error e
    | Except.ok c =>
      match seriesMean c with
      | Except.error e => Except.error e
      | Except.ok v =>
        match fmtScalar v 2 with
        | Except.error e => Except.error e
        | Except.ok s => Except.ok ("The average trading volume is " ++ s)
  | QPattern.trendP =>
    Except.ok "Trend analysis can be visualized through a line chart showing closing prices over time."
  | QPattern.corrP =>
    match dfGet df "Open" with
    | Except.error e => Except.error e
    | Except.ok o =>
      match dfGet df "Close" with
      | Except.error e => Except.error e
      | Except.ok c =>
        match corrSeries o c with
        | Except.error e => Except.error e
        | Except.ok v =>
          match fmtScalar v 3 with
          | Except.error e => Except.error e
          | Except.ok s =>
            Except.ok ("The correlation between opening and closing prices is " ++ s)

/-- The spec's description of the matching policy: the first pattern of the
priority list that matches the lower-cased question alone determines the
answer; the sentinel is returned when none match. -/
def answer_spec (question : String) (df : DataFrame) : Except PyErr String :=
  match patternsInOrder.find? (fun p => patternMatches p (strLower question)) with
  | some p => answerForPattern p df
  | none => Except.ok "Answer not available for this question."

/-- The inline column-existence test of `app.explore_variable`
(`variable in dataframe.columns`): exact, case-sensitive membership. -/
def column_exists (t : Table) (n : String) : Bool := t.header.contains n

/-- The two outcomes of the examine-feature path. -/
inductive Branch where
  | found
  | notFound
deriving DecidableEq, Repr

/-- The branch taken by `app.explore_variable` (line 116:
`if variable and variable in dataframe.columns`): Python truthiness makes the
empty string fall into the warning branch regardless of membership. -/
def explore_branch (n : String) (t : Table) : Branch :=
  if (n != "") && column_exists t n then Branch.found else Branch.notFound

lemma answerLowered_eq_dispatch (ql : String) (df : DataFrame) :
    answerLowered ql df =
      match patternsInOrder.find? (fun p => patternMatches p ql) with
      | some p => answerForPattern p df
      | none => Except.ok "Answer not available for this question." := by
  cases h1 : hasSubS "average closing price" ql with
  | true =>
    simp [answerLowered, patternsInOrder, List.find?, patternMatches, answerForPattern, h1]
  | false =>
  cases h2 : hasSubS "highest price" ql with
  | true =>
    simp [answerLowered, patternsInOrder, List.find?, patternMatches, answerForPattern, h1, h2]
  | false =>
  cases h3 : hasSubS "lowest price" ql with
  | true =>
    simp [answerLowered, patternsInOrder, List.find?, patternMatches, answerForPattern, h1, h2,
      h3]
  | false =>
  cases h4 : hasSubS "trading volume" ql with
  | true =>
    simp [answerLowered, patternsInOrder, List.find?, patternMatches, answerForPattern, h1, h2,
      h3, h4]
  | false =>
  cases h5 : hasSubS "trend" ql && hasSubS "price" ql with
  | true =>
    simp [answerLowered, patternsInOrder, List.find?, patternMatches, answerForPattern, h1, h2,
      h3, h4, h5]
  | false =>
  cases h6 : hasSubS "correlation" ql && hasSubS "price" ql with
  | true =>
    simp [answerLowered, patternsInOrder, List.find?, patternMatches, answerForPattern, h1, h2,
      h3, h4, h5, h6]
  | false =>
    simp [answerLowered, patternsInOrder, List.find?, patternMatches, answerForPattern, h1, h2,
      h3, h4, h5, h6]

/-- C4: the lower-cased question is tested for substring membership against
the six patterns in the exact priority order avgClose, highP, lowP, vol,
trendP, corrP; the first match alone determines the answer (`answer_spec`),
and a question matching both the trend pattern and the correlation pattern
(and none of the four arithmetic patterns, which take precedence over both)
resolves to the trend answer. -/
theorem C4_pattern_priority_order :
    (∀ q df, get_answer_to_question q df = answer_spec q df) ∧
    (∀ q df, hasSubS "average closing price" (strLower q) = false →
      hasSubS "highest price" (strLower q) = false →
      hasSubS "lowest price" (strLower q) = false →
      hasSubS "trading volume" (strLower q) = false →
      hasSubS "trend" (strLower q) = true →
      hasSubS "price" (strLower q) = true →
      hasSubS "correlation" (strLower q) = true →
      get_answer_to_question q df =
        Except.ok
          "Trend analysis can be visualized through a line chart showing closing prices over time.") := by
  constructor
  · intro q df
    unfold get_answer_to_question answer_spec
    exact answerLowered_eq_dispatch (strLower q) df
  · intro q df h1 h2 h3 h4 h5 h6 h7
    unfold get_answer_to_question answerLowered
    simp [h1, h2, h3, h4, h5, h6]

/-- C4 witness: a question containing "trend", "price" and "correlation"
resolves to the trend answer. -/
theorem C4_pattern_priority_order_witness :
    get_answer_to_question "correlation and trend of price" (DataFrame.mk []) =
      Except.ok
        "Trend analysis can be visualized through a line chart showing closing prices over time." :=
  C4_pattern_priority_order.2 "correlation and trend of price" (DataFrame.mk [])
    rfl rfl rfl rfl rfl rfl rfl

/-- C6: a question whose lower-cased form matches none of the six patterns
gets the sentinel answer, whatever the table holds. -/
theorem C6_unmatched_question_sentinel :
    ∀ q df, patternsInOrder.find? (fun p => patternMatches p (strLower q)) = none →
      get_answer_to_question q df = Except.ok "Answer not available for this question." := by
  intro q df h
  unfold get_answer_to_question
  rw [answerLowered_eq_dispatch, h]

/-- C6 witness: the spec's own example question. -/
theorem C6_unmatched_question_sentinel_witness :
    get_answer_to_question "what is the weather" (DataFrame.mk []) =
      Except.ok "Answer not available for this question." :=
  C6_unmatched_question_sentinel "what is the weather" (DataFrame.mk []) rfl

/-- Character lists that differ only in (ASCII) letter case. -/
def caseVariantChars : List Char → List Char → Bool
  | [], [] => true
  | a :: as, b :: bs => (lowerChar a == lowerChar b) && caseVariantChars as bs
  | _, _ => false

/-- Strings that differ only in (ASCII) letter case. -/
def caseVariant (q r : String) : Bool := caseVariantChars q.data r.data

lemma map_lower_eq_of_caseVariant (as : List Char) : ∀ bs : List Char,
    caseVariantChars as bs = true → as.map lowerChar = bs.map lowerChar := by
  induction as with
  | nil =>
    intro bs h
    cases bs with
    | nil => rfl
    | cons b bs => simp [caseVariantChars] at h
  | cons a as ih =>
    intro bs h
    cases bs with
    | nil => simp [caseVariantChars] at h
    | cons b bs =>
      rw [caseVariantChars, Bool.and_eq_true, beq_iff_eq] at h
      simp [List.map, h.1, ih bs h.2]

/-- C7: question matching is case-insensitive — two questions that differ only
in letter case get the same answer on every table. -/
theorem C7_case_insensitive :
    ∀ q r df, caseVariant q r = true →
      get_answer_to_question q df = get_answer_to_question r df := by
  intro q r df h
  unfold get_answer_to_question
  have hl : strLower q = strLower r := by
    unfold strLower
    rw [map_lower_eq_of_caseVariant q.data r.data h]
  rw [hl]

/-- C7 witness: an upper-cased variant of a trend question. -/
theorem C7_case_insensitive_witness :
    caseVariant "TREND of PRICE" "trend of price" = true ∧
    get_answer_to_question "TREND of PRICE" (DataFrame.mk []) =
      get_answer_to_question "trend of price" (DataFrame.mk []) :=
  ⟨rfl, C7_case_insensitive "TREND of PRICE" "trend of price" (DataFrame.mk []) rfl⟩

lemma seriesMean_tens :
    seriesMean [Cell.num (10:ℚ), Cell.num 20, Cell.num 30] =
      Except.ok (PdScalar.num 20) := by
  have hall : ([Cell.num (10:ℚ), Cell.num 20, Cell.num 30].all isNumCell) = true := rfl
  have h : ([Cell.num (10:ℚ), Cell.num 20, Cell.num 30].filterMap cellNum) =
      [(10:ℚ), 20, 30] := rfl
  unfold seriesMean
  rw [if_pos hall, h, if_neg (by simp : ¬([(10:ℚ), 20, 30] = []))]
  norm_num [List.sum]

lemma fmtScalar_twenty : fmtScalar (PdScalar.num (20:ℚ)) 2 = Except.ok "20.00" := by
  have h2 : roundHalfEven ((20:ℚ) * 10 ^ 2) = 2000 := by
    have h1 : (20:ℚ) * 10 ^ 2 = 2000 := by norm_num
    unfold roundHalfEven
    rw [h1, if_pos (by norm_num)]
    norm_num
  show Except.ok (String.mk (fmtFixedQ (20:ℚ) 2)) = Except.ok "20.00"
  simp only [fmtFixedQ, h2]
  rfl

lemma corr_ones :
    corrSeries [Cell.num (1:ℚ), Cell.num 2, Cell.num 3]
        [Cell.num (1:ℚ), Cell.num 2, Cell.num 3] =
      Except.ok (PdScalar.num 1) := by
  have hp : (([Cell.num (1:ℚ), Cell.num 2, Cell.num 3].zip
        [Cell.num (1:ℚ), Cell.num 2, Cell.num 3]).filterMap
      (fun ab => match ab with | (Cell.num a, Cell.num b) => some (a, b) | _ => none)) =
      [((1:ℚ), (1:ℚ)), (2, 2), (3, 3)] := rfl
  have hall : ([Cell.num (1:ℚ), Cell.num 2, Cell.num 3].all isNumCell &&
      [Cell.num (1:ℚ), Cell.num 2, Cell.num 3].all isNumCell) = true := rfl
  unfold corrSeries
  rw [if_pos hall, hp]
  have hc : corrOfPairs [((1:ℚ), (1:ℚ)), (2, 2), (3, 3)] = PdScalar.num 1 := by
    simp only [corrOfPairs]
    norm_num [List.sum]
    rw [show ratSqrt (4:ℚ) = some (((2:ℕ):ℚ) / ((1:ℕ):ℚ)) from rfl]
    norm_num
  rw [hc]

lemma fmtScalar_one : fmtScalar (PdScalar.num (1:ℚ)) 3 = Except.ok "1.000" := by
  have h2 : roundHalfEven ((1:ℚ) * 10 ^ 3) = 1000 := by
    have h1 : (1:ℚ) * 10 ^ 3 = 1000 := by norm_num
    unfold roundHalfEven
    rw [h1, if_pos (by norm_num)]
    norm_num
  show Except.ok (String.mk (fmtFixedQ (1:ℚ) 3)) = Except.ok "1.000"
  simp only [fmtFixedQ, h2]
  rfl

/-- C5: on a table whose Close column is exactly [10, 20, 30] the average
question renders "20.00" (two digits after the point), and on Open = Close =
[1, 2, 3] the correlation question renders "1.000" (three digits after the
point). -/
theorem C5_exact_formatting :
    (∀ df : DataFrame,
      dfGet df "Close" = Except.ok [Cell.num 10, Cell.num 20, Cell.num 30] →
      get_answer_to_question "What is the average closing price?" df =
        Except.ok "The average closing price is 20.00") ∧
    (∀ df : DataFrame,
      dfGet df "Open" = Except.ok [Cell.num 1, Cell.num 2, Cell.num 3] →
      dfGet df "Close" = Except.ok [Cell.num 1, Cell.num 2, Cell.num 3] →
      get_answer_to_question "correlation between open and close price" df =
        Except.ok "The correlation between opening and closing prices is 1.000") := by
  constructor
  · intro df h
    have hc1 : hasSubS "average closing price"
        (strLower "What is the average closing price?") = true := rfl
    unfold get_answer_to_question answerLowered
    simp only [h, hc1, if_true]
    simp only [seriesMean_tens, fmtScalar_twenty]
    rfl
  · intro df ho hc
    have c1 : hasSubS "average closing price"
        (strLower "correlation between open and close price") = false := rfl
    have c2 : hasSubS "highest price"
        (strLower "correlation between open and close price") = false := rfl
    have c3 : hasSubS "lowest price"
        (strLower "correlation between open and close price") = false := rfl
    have c4 : hasSubS "trading volume"
        (strLower "correlation between open and close price") = false := rfl
    have c5 : (hasSubS "trend" (strLower "correlation between open and close price") &&
        hasSubS "price" (strLower "correlation between open and close price")) = false := rfl
    have c6 : (hasSubS "correlation" (strLower "correlation between open and close price") &&
        hasSubS "price" (strLower "correlation between open and close price")) = true := rfl
    unfold get_answer_to_question answerLowered
    simp only [c1, c2, c3, c4, c5, c6, Bool.false_eq_true, if_true, if_false, ite_false]
    simp only [ho, hc]
    simp only [corr_ones, fmtScalar_one]
    rfl

/-- C5 witness: both formatting facts at concrete tables. -/
theorem C5_exact_formatting_witness :
    get_answer_to_question "What is the average closing price?"
        (DataFrame.mk [("Close", [Cell.num 10, Cell.num 20, Cell.num 30])]) =
      Except.ok "The average closing price is 20.00" ∧
    get_answer_to_question "correlation between open and close price"
        (DataFrame.mk [("Open", [Cell.num 1, Cell.num 2, Cell.num 3]),
          ("Close", [Cell.num 1, Cell.num 2, Cell.num 3])]) =
      Except.ok "The correlation between opening and closing prices is 1.000" :=
  ⟨C5_exact_formatting.1 _ rfl, C5_exact_formatting.2 _ rfl rfl⟩

lemma all_nan_isNumCell (c : List Cell) (h : c.all (fun x => x == Cell.nan) = true) :
    c.all isNumCell = true := by
  induction c with
  | nil => rfl
  | cons a t ih =>
    rw [List.all_cons, Bool.and_eq_true] at h
    have ha : a = Cell.nan := by
      have h1 := h.1
      rwa [beq_iff_eq] at h1
    subst ha
    rw [List.all_cons, Bool.and_eq_true]
    exact ⟨rfl, ih h.2⟩

lemma all_nan_no_nums (c : List Cell) (h : c.all (fun x => x == Cell.nan) = true) :
    c.filterMap cellNum = [] := by
  induction c with
  | nil => rfl
  | cons a t ih =>
    rw [List.all_cons, Bool.and_eq_true] at h
    have ha : a = Cell.nan := by
      have h1 := h.1
      rwa [beq_iff_eq] at h1
    subst ha
    exact ih h.2

/-- C10: a present Close column every cell of which is missing (for example a
table with zero rows) does not raise and does not trigger any diagnostic: the
NaN mean is formatted as the literal "nan". -/
theorem C10_empty_close_nan :
    ∀ q df c, hasSubS "average closing price" (strLower q) = true →
      dfGet df "Close" = Except.ok c →
      c.all (fun x => x == Cell.nan) = true →
      get_answer_to_question q df = Except.ok "The average closing price is nan" := by
  intro q df c hq hc he
  have hm : seriesMean c = Except.ok PdScalar.nan := by
    unfold seriesMean
    rw [if_pos (all_nan_isNumCell c he), if_pos (all_nan_no_nums c he)]
  unfold get_answer_to_question answerLowered
  simp [hq, hc, hm, fmtScalar]

/-- C10 witness: a zero-row Close column. -/
theorem C10_empty_close_nan_witness :
    get_answer_to_question "average closing price" (DataFrame.mk [("Close", [])]) =
      Except.ok "The average closing price is nan" :=
  C10_empty_close_nan "average closing price" (DataFrame.mk [("Close", [])]) [] rfl rfl rfl

/-- C1 counterexample: on a table with no Close column the access raises
`KeyError`, and on a present but string-typed Close column the mean raises
`TypeError`; in neither case is the claimed diagnostic string returned. -/
theorem C1_missing_column_raises_keyerror :
    (get_answer_to_question "average closing price" (DataFrame.mk []) =
      Except.error (PyErr.keyError "Close") ∧
    (Except.error (PyErr.keyError "Close") : Except PyErr String) ≠
      Except.ok "Unable to compute this question — column may not exist.") ∧
    (get_answer_to_question "average closing price"
        (DataFrame.mk [("Close", [Cell.str "ten"])]) =
      Except.error (PyErr.typeError "Could not convert string to numeric") ∧
    (Except.error (PyErr.typeError "Could not convert string to numeric") :
        Except PyErr String) ≠
      Except.ok "Unable to compute this question — column may not exist.") :=
  ⟨⟨rfl, fun h => Except.noConfusion h⟩, ⟨rfl, fun h => Except.noConfusion h⟩⟩

/-- The columns a pattern's computation accesses, in access order. -/
def requiredCols : QPattern → List String
  | QPattern.avgClose => ["Close"]
  | QPattern.highP => ["High"]
  | QPattern.lowP => ["Low"]
  | QPattern.vol => ["Volume"]
  | QPattern.trendP => []
  | QPattern.corrP => ["Open", "Close"]

/-- Is that column present, with every cell numeric or missing? -/
def hasNumericCol (df : DataFrame) (n : String) : Bool :=
  match df.cols.find? (fun c => c.1 == n) with
  | some c => c.2.all isNumCell
  | none => false

/-- Are all columns required by the matched pattern present and numeric?
(Trivially true when no pattern matched or the pattern needs no column.) -/
def requiredNumeric (df : DataFrame) : Option QPattern → Bool
  | none => true
  | some p => (requiredCols p).all (fun n => hasNumericCol df n)

lemma dfGet_of_hasNumericCol (df : DataFrame) (n : String)
    (h : hasNumericCol df n = true) :
    ∃ c, dfGet df n = Except.ok c ∧ c.all isNumCell = true := by
  unfold hasNumericCol at h
  unfold dfGet
  cases hf : df.cols.find? (fun c => c.1 == n) with
  | none => rw [hf] at h; exact Bool.noConfusion h
  | some c => rw [hf] at h; exact ⟨c.2, rfl, h⟩

lemma no_strs_of_numeric (c : List Cell) (h : c.all isNumCell = true) :
    c.filterMap cellStr = [] := by
  induction c with
  | nil => rfl
  | cons a t ih =>
    rw [List.all_cons, Bool.and_eq_true] at h
    cases a with
    | num q => exact ih h.2
    | nan => exact ih h.2
    | str x => exact Bool.noConfusion h.1

lemma seriesMean_ok_of_numeric (c : List Cell) (h : c.all isNumCell = true) :
    ∃ v, seriesMean c = Except.ok v ∧ scalarIsStr v = false := by
  unfold seriesMean
  rw [if_pos h]
  by_cases hnil : c.filterMap cellNum = []
  · rw [if_pos hnil]
    exact ⟨PdScalar.nan, rfl, rfl⟩
  · rw [if_neg hnil]
    exact ⟨_, rfl, rfl⟩

lemma seriesMax_ok_of_numeric (c : List Cell) (h : c.all isNumCell = true) :
    ∃ v, seriesMax c = Except.ok v ∧ scalarIsStr v = false := by
  have hstr : c.filterMap cellStr = [] := no_strs_of_numeric c h
  unfold seriesMax
  cases hn : c.filterMap cellNum with
  | nil => rw [hstr]; exact ⟨PdScalar.nan, rfl, rfl⟩
  | cons x xs => rw [hstr]; exact ⟨_, rfl, rfl⟩

lemma seriesMin_ok_of_numeric (c : List Cell) (h : c.all isNumCell = true) :
    ∃ v, seriesMin c = Except.ok v ∧ scalarIsStr v = false := by
  have hstr : c.filterMap cellStr = [] := no_strs_of_numeric c h
  unfold seriesMin
  cases hn : c.filterMap cellNum with
  | nil => rw [hstr]; exact ⟨PdScalar.nan, rfl, rfl⟩
  | cons x xs => rw [hstr]; exact ⟨_, rfl, rfl⟩

lemma corrOfPairs_not_str (p : List (ℚ × ℚ)) : scalarIsStr (corrOfPairs p) = false := by
  simp only [corrOfPairs]
  split
  · rfl
  · split <;> rfl

lemma corrSeries_ok_of_numeric (x y : List Cell) (hx : x.all isNumCell = true)
    (hy : y.all isNumCell = true) :
    ∃ v, corrSeries x y = Except.ok v ∧ scalarIsStr v = false := by
  unfold corrSeries
  rw [if_pos (by rw [hx, hy]; rfl : (x.all isNumCell && y.all isNumCell) = true)]
  exact ⟨_, rfl, corrOfPairs_not_str _⟩

lemma fmtScalar_ok (v : PdScalar) (d : Nat) (h : scalarIsStr v = false) :
    ∃ s, fmtScalar v d = Except.ok s := by
  cases v with
  | num q => exact ⟨_, rfl⟩
  | nan => exact ⟨"nan", rfl⟩
  | str x => exact Bool.noConfusion h

lemma ne_of_head (s t : String) (h : s.data.head? ≠ t.data.head?) : s ≠ t :=
  fun he => h (congrArg (fun u => u.data.head?) he)

lemma head_avg (x : String) :
    ("The average closing price is " ++ x).data.head? = some 'T' := by
  cases x with | mk d => rfl

lemma head_high (x : String) :
    ("The highest price recorded is " ++ x).data.head? = some 'T' := by
  cases x with | mk d => rfl

lemma head_low (x : String) :
    ("The lowest price recorded is " ++ x).data.head? = some 'T' := by
  cases x with | mk d => rfl

lemma head_vol (x : String) :
    ("The average trading volume is " ++ x).data.head? = some 'T' := by
  cases x with | mk d => rfl

lemma head_corr (x : String) :
    ("The correlation between opening and closing prices is " ++ x).data.head? = some 'T' := by
  cases x with | mk d => rfl

/-- C1 amended: the diagnostic string "Unable to compute this question —
column may not exist." cannot be produced by the code at all.  Whenever every
column required by the matched pattern is present with only numeric or
missing cells, the answerer returns a string, and that string is never the
diagnostic; when a required column is absent the call raises `KeyError`, and
when it is present but string-typed the aggregate or the format raises
`TypeError`/`ValueError` (see the counterexample) — never the diagnostic
either. -/
theorem C1_amended_answer_ok_when_columns_present :
    ∀ q df,
      requiredNumeric df (patternsInOrder.find? (fun p => patternMatches p (strLower q))) = true →
      ∃ s, get_answer_to_question q df = Except.ok s ∧
        s ≠ "Unable to compute this question — column may not exist." := by
  intro q df hreq
  unfold get_answer_to_question
  rw [answerLowered_eq_dispatch]
  cases hfm : patternsInOrder.find? (fun p => patternMatches p (strLower q)) with
  | none =>
    exact ⟨"Answer not available for this question.", rfl, by decide⟩
  | some p =>
    rw [hfm] at hreq
    cases p with
    | avgClose =>
      unfold requiredNumeric requiredCols at hreq
      simp [List.all] at hreq
      obtain ⟨c, hc, hcn⟩ := dfGet_of_hasNumericCol df "Close" hreq
      obtain ⟨v, hv, hvs⟩ := seriesMean_ok_of_numeric c hcn
      obtain ⟨s, hs⟩ := fmtScalar_ok v 2 hvs
      refine ⟨"The average closing price is " ++ s, ?_, ?_⟩
      · simp [answerForPattern, hc, hv, hs]
      · exact ne_of_head _ _ (by rw [head_avg]; decide)
    | highP =>
      unfold requiredNumeric requiredCols at hreq
      simp [List.all] at hreq
      obtain ⟨c, hc, hcn⟩ := dfGet_of_hasNumericCol df "High" hreq
      obtain ⟨v, hv, hvs⟩ := seriesMax_ok_of_numeric c hcn
      obtain ⟨s, hs⟩ := fmtScalar_ok v 2 hvs
      refine ⟨"The highest price recorded is " ++ s, ?_, ?_⟩
      · simp [answerForPattern, hc, hv, hs]
      · exact ne_of_head _ _ (by rw [head_high]; decide)
    | lowP =>
      unfold requiredNumeric requiredCols at hreq
      simp [List.all] at hreq
      obtain ⟨c, hc, hcn⟩ := dfGet_of_hasNumericCol df "Low" hreq
      obtain ⟨v, hv, hvs⟩ := seriesMin_ok_of_numeric c hcn
      obtain ⟨s, hs⟩ := fmtScalar_ok v 2 hvs
      refine ⟨"The lowest price recorded is " ++ s, ?_, ?_⟩
      · simp [answerForPattern, hc, hv, hs]
      · exact ne_of_head _ _ (by rw [head_low]; decide)
    | vol =>
      unfold requiredNumeric requiredCols at hreq
      simp [List.all] at hreq
      obtain ⟨c, hc, hcn⟩ := dfGet_of_hasNumericCol df "Volume" hreq
      obtain ⟨v, hv, hvs⟩ := seriesMean_ok_of_numeric c hcn
      obtain ⟨s, hs⟩ := fmtScalar_ok v 2 hvs
      refine ⟨"The average trading volume is " ++ s, ?_, ?_⟩
      · simp [answerForPattern, hc, hv, hs]
      · exact ne_of_head _ _ (by rw [head_vol]; decide)
    | trendP =>
      refine ⟨_, rfl, by decide⟩
    | corrP =>
      unfold requiredNumeric requiredCols at hreq
      simp [List.all] at hreq
      obtain ⟨o, ho, hon⟩ := dfGet_of_hasNumericCol df "Open" hreq.1
      obtain ⟨c, hc, hcn⟩ := dfGet_of_hasNumericCol df "Close" hreq.2
      obtain ⟨v, hv, hvs⟩ := corrSeries_ok_of_numeric o c hon hcn
      obtain ⟨s, hs⟩ := fmtScalar_ok v 3 hvs
      refine ⟨"The correlation between opening and closing prices is " ++ s, ?_, ?_⟩
      · simp [answerForPattern, ho, hc, hv, hs]
      · exact ne_of_head _ _ (by rw [head_corr]; decide)

/-- C1 amended witness: with the required column present and numeric the
answer is a returned string. -/
theorem C1_amended_witness :
    requiredNumeric (DataFrame.mk [("High", [Cell.num 5, Cell.num 50, Cell.num 7])])
      (patternsInOrder.find?
        (fun p => patternMatches p (strLower "Show highest price"))) = true ∧
    ∃ s, get_answer_to_question "Show highest price"
        (DataFrame.mk [("High", [Cell.num 5, Cell.num 50, Cell.num 7])]) = Except.ok s ∧
      s ≠ "Unable to compute this question — column may not exist." :=
  ⟨rfl, C1_amended_answer_ok_when_columns_present "Show highest price"
    (DataFrame.mk [("High", [Cell.num 5, Cell.num 50, Cell.num 7])]) rfl⟩

/-- C8 counterexample: the empty name.  Python's truthiness test
`if variable and variable in dataframe.columns` sends `""` to the warning
branch even when `""` is literally among the column names, so the branch is
not taken "exactly when" the membership holds. -/
theorem C8_empty_name_branch_mismatch :
    column_exists (Table.mk [""] []) "" = true ∧
    explore_branch "" (Table.mk [""] []) = Branch.notFound := ⟨rfl, rfl⟩

/-- C8 amended: the membership test itself is exact case-sensitive string
comparison against the column names, and for every non-empty name the
examine-feature path takes the found branch exactly when the name is present;
the empty name always takes the warning branch (see the counterexample). -/
theorem C8_amended_column_exists_branch :
    ∀ (t : Table) (n : String),
      (column_exists t n = true ↔ n ∈ t.header) ∧
      (n ≠ "" → (explore_branch n t = Branch.found ↔ n ∈ t.header)) := by
  intro t n
  have hcol : column_exists t n = true ↔ n ∈ t.header := by
    unfold column_exists
    simp
  refine ⟨hcol, fun hne => ?_⟩
  have hbne : (n != "") = true := by simpa using hne
  unfold explore_branch
  cases hce : column_exists t n with
  | true =>
    rw [if_pos (by simp [hbne, hce])]
    exact iff_of_true rfl (hcol.mp hce)
  | false =>
    rw [if_neg (by simp [hce])]
    exact iff_of_false (fun h => Branch.noConfusion h)
      (fun hm => by rw [hcol.mpr hm] at hce; exact Bool.noConfusion hce)

/-- C8 amended witness: the spec's own example column name. -/
theorem C8_amended_witness :
    column_exists (Table.mk ["Volume"] []) "Volume" = true ∧
    explore_branch "Volume" (Table.mk ["Volume"] []) = Branch.found := by
  have h := C8_amended_column_exists_branch (Table.mk ["Volume"] []) "Volume"
  refine ⟨h.1.mpr ?_, (h.2 ?_).mpr ?_⟩
  · simp
  · simp
  · simp

lemma load_stream_eq (detect : List Nat → Option Encoding) (s : ByteStream) :
    read_csv_any_encoding_stream detect s =
      match pd_parse ((detect (s.content.drop s.pos)).getD Encoding.utf8) s.content with
      | Except.ok t => (Except.ok t, ByteStream.mk s.content s.content.length)
      | Except.error PyErr.unicodeDecodeError =>
        (Except.error (PyErr.valueError (ingestionMsg fallbackTypeErrorMsg)),
          ByteStream.mk s.content 0)
      | Except.error e =>
        (Except.error (PyErr.valueError (ingestionMsg (errStr e))),
          ByteStream.mk s.content s.content.length) := by
  unfold read_csv_any_encoding_stream pd_read_csv
  simp only [List.drop_zero]
  cases hp : pd_parse ((detect (s.content.drop s.pos)).getD Encoding.utf8) s.content with
  | ok t => rfl
  | error e => cases e <;> rfl

/-- C3 counterexample: a successful load of a well-formed stream leaves the
read position at end-of-stream (8), not back at the start — `seek(0)` happens
before parsing and `pd.read_csv` consumes the stream. -/
theorem C3_stream_position_not_reset :
    (read_csv_any_encoding_stream (fun _ => none)
        (ByteStream.mk [65, 44, 66, 10, 49, 44, 50, 10] 0)).1 =
      Except.ok (Table.mk ["A", "B"] [["1", "2"]]) ∧
    (read_csv_any_encoding_stream (fun _ => none)
        (ByteStream.mk [65, 44, 66, 10, 49, 44, 50, 10] 0)).2.pos = 8 ∧
    (read_csv_any_encoding_stream (fun _ => none)
        (ByteStream.mk [65, 44, 66, 10, 49, 44, 50, 10] 0)).2.pos ≠ 0 :=
  ⟨rfl, rfl, by decide⟩

/-- C3 amended: although the position is not reset, loading twice from the
same stream gives identical results (and identical final stream states): the
second call reads zero bytes for detection, the detector reports nothing on
empty input, the encoding defaults to utf-8, and the function seeks to the
start before parsing — so when the detector labels the content utf-8 (or not
at all), both loads agree. -/
theorem C3_amended_double_load_identical :
    ∀ (detect : List Nat → Option Encoding) (content : List Nat),
      (detect content = some Encoding.utf8 ∨ detect content = none) →
      detect [] = none →
      read_csv_any_encoding_stream detect
          ((read_csv_any_encoding_stream detect (ByteStream.mk content 0)).2) =
        read_csv_any_encoding_stream detect (ByteStream.mk content 0) := by
  intro detect content hdet hempty
  have henc : (detect content).getD Encoding.utf8 = Encoding.utf8 := by
    rcases hdet with h | h <;> rw [h] <;> rfl
  simp only [load_stream_eq, List.drop_zero, henc]
  cases hp : pd_parse Encoding.utf8 content with
  | ok t => simp [hp, List.drop_length, hempty]
  | error e => cases e <;> simp [hp, List.drop_length, hempty, henc]

/-- C3 amended witness: double load of a concrete well-formed stream. -/
theorem C3_amended_double_load_identical_witness :
    read_csv_any_encoding_stream (fun _ => none)
        ((read_csv_any_encoding_stream (fun _ => none)
          (ByteStream.mk [65, 44, 66, 10, 49, 44, 50, 10] 0)).2) =
      read_csv_any_encoding_stream (fun _ => none)
        (ByteStream.mk [65, 44, 66, 10, 49, 44, 50, 10] 0) :=
  C3_amended_double_load_identical (fun _ => none) [65, 44, 66, 10, 49, 44, 50, 10]
    (Or.inr rfl) rfl

/-- C9: when the detector yields no label the loader behaves exactly as if the
detector had said utf-8 — the encoding silently defaults and the call
proceeds; in particular the load succeeds whenever the utf-8 parse of the
content succeeds, so a detection failure alone is never an error. -/
theorem C9_detector_none_defaults_utf8 :
    ∀ (detect : List Nat → Option Encoding) (s : ByteStream),
      detect (s.content.drop s.pos) = none →
      (read_csv_any_encoding_stream detect s =
        read_csv_any_encoding_stream (fun _ => some Encoding.utf8) s) ∧
      (∀ t, pd_parse Encoding.utf8 s.content = Except.ok t →
        (read_csv_any_encoding_stream detect s).1 = Except.ok t) := by
  intro detect s h
  constructor
  · simp only [load_stream_eq, h]
    rfl
  · intro t ht
    simp [load_stream_eq, h, ht]

/-- C9 witness: loading a concrete stream with a detector that yields no
label. -/
theorem C9_detector_none_defaults_utf8_witness :
    (read_csv_any_encoding_stream (fun _ => none) (ByteStream.mk [65, 10, 49, 10] 0)).1 =
      Except.ok (Table.mk ["A"] [["1"]]) :=
  (C9_detector_none_defaults_utf8 (fun _ => none) (ByteStream.mk [65, 10, 49, 10] 0) rfl).2
    (Table.mk ["A"] [["1"]]) rfl

/-- C2 (code bug): on structurally valid but merely-garbled content — here
"A,B\n1(0xFF),2\n", whose byte 0xFF is not valid UTF-8 — with the detector
reporting utf-8, the loader raises `ValueError` instead of retrying with
replacement: the retry call `pd.read_csv(..., errors="replace", ...)` passes a
keyword `pandas.read_csv` does not have (it is `encoding_errors`), so it
raises `TypeError` and the outer handler converts it.  The second conjunct
shows the same bytes decode under the intended utf-8 replacement policy to a
structurally valid table, i.e. the content is merely garbled, not structurally
invalid. -/
theorem C2_fallback_typeerror_on_garbled_text :
    read_csv_any_encoding_path (fun _ => some Encoding.utf8)
        [65, 44, 66, 10, 49, 255, 44, 50, 10] =
      Except.error (PyErr.valueError (ingestionMsg fallbackTypeErrorMsg)) ∧
    parseCSV (utf8DecodeReplace [65, 44, 66, 10, 49, 255, 44, 50, 10]) =
      Except.ok (Table.mk ["A", "B"] [[String.mk ['1', replChar], "2"]]) :=
  ⟨rfl, rfl⟩
